import Mathlib

/-!
Shallow embedding of `shared_resources.py` of the swiss_army_llama repository,
together with theorems settling the frozen claims about it.

External effects (the nvgpu module, the llama_cpp constructor, the filesystem,
the file lock, the network) are modelled as explicit environment records; the
control flow, branch conditions, literal constants and literal strings of each
embedded function are translated line by line from the source.
-/

namespace SALlama

/-! ## `is_gpu_available` -/

/-- Value stored under a key of the Python dict returned by `is_gpu_available`:
a boolean, a number, a string, or the raw gpu-info list (each entry reduced to
its `mem_total` field, the only one the function reads). -/
inductive GpuVal where
  | b (x : Bool)
  | n (x : Nat)
  | s (x : String)
  | info (x : List Nat)
deriving DecidableEq

/-- Environment of `is_gpu_available`: whether the `import nvgpu` at module
load succeeded (`GPU_AVAILABLE`), and the outcome of `nvgpu.gpu_info()` —
`none` models the call raising any exception (with `queryError` the `str(e)`
of the exception), `some l` models it returning a list of gpu entries whose
`mem_total` fields are the elements of `l`. -/
structure GpuEnv where
  modulePresent : Bool
  query : Option (List Nat)
  queryError : String

/-- Embedding of `is_gpu_available` (src/shared_resources.py lines 50-85).
The Python dict is modelled as an association list.  The function is total:
every environment (module absent, query raising, zero GPUs, GPUs present)
falls into one of the four return branches, so it never raises. -/
def is_gpu_available (env : GpuEnv) : List (String × GpuVal) :=
  if !env.modulePresent then
    [("gpu_found", GpuVal.b false), ("num_gpus", GpuVal.n 0),
     ("first_gpu_vram", GpuVal.n 0), ("total_vram", GpuVal.n 0),
     ("error", GpuVal.s "nvgpu module not found")]
  else
    match env.query with
    | none =>
      [("gpu_found", GpuVal.b false), ("num_gpus", GpuVal.n 0),
       ("first_gpu_vram", GpuVal.n 0), ("total_vram", GpuVal.n 0),
       ("error", GpuVal.s env.queryError)]
    | some gpu_info =>
      let num_gpus := gpu_info.length
      if num_gpus = 0 then
        [("gpu_found", GpuVal.b false), ("num_gpus", GpuVal.n 0),
         ("first_gpu_vram", GpuVal.n 0), ("total_vram", GpuVal.n 0)]
      else
        let first_gpu_vram := gpu_info.headI
        let total_vram := gpu_info.sum
        [("gpu_found", GpuVal.b true), ("num_gpus", GpuVal.n num_gpus),
         ("first_gpu_vram", GpuVal.n first_gpu_vram),
         ("total_vram", GpuVal.n total_vram), ("gpu_info", GpuVal.info gpu_info)]

/-- The `gpu_info['gpu_found']` read performed by `load_model`: dict lookup of
the key `gpu_found` (always present and boolean, see the claim-10 theorem). -/
def gpuFoundFlag (env : GpuEnv) : Bool :=
  match (is_gpu_available env).lookup "gpu_found" with
  | some (GpuVal.b x) => x
  | _ => false

/-! ## `load_model` -/

/-- Python exception values that flow through `load_model`: `TypeError`,
`FileNotFoundError`, FastAPI `HTTPException`, or any other exception
(`llama_cpp` construction failures, `IndexError`, ...). -/
inductive PyExc where
  | typeError (msg : String)
  | fileNotFoundError (msg : String)
  | httpException (status : Nat) (detail : String)
  | otherError (msg : String)
deriving DecidableEq

/-- Equality of modelled raise-or-return outcomes is decidable, so concrete
runs can be evaluated. -/
instance {ε α : Type} [DecidableEq ε] [DecidableEq α] : DecidableEq (Except ε α)
  | Except.ok a, Except.ok b => decidable_of_iff (a = b) (by simp)
  | Except.ok _, Except.error _ => isFalse (by simp)
  | Except.error _, Except.ok _ => isFalse (by simp)
  | Except.error e, Except.error f => decidable_of_iff (e = f) (by simp)

/-- Keyword arguments passed to the `llama_cpp.Llama` constructor by
`load_model`; `n_gpu_layers` is `some (-1)` on the GPU attempt and absent
(`none`) on the CPU attempts. -/
structure LlamaParams where
  model_path : String
  embedding : Bool
  n_ctx : Nat
  verbose : Bool
  n_gpu_layers : Option Int
deriving DecidableEq

/-- Environment of `load_model`: the GPU probe environment, the `USE_RAMDISK`
flag with the files (basename, mtime) of the two candidate models
directories, the `LLM_CONTEXT_SIZE_IN_TOKENS` and `USE_VERBOSE` config
values, and the external `llama_cpp.Llama` constructor (returning a handle,
modelled as a `Nat`, or raising). -/
structure LoadEnv where
  gpu : GpuEnv
  useRamdisk : Bool
  ramdiskFiles : List (String × Nat)
  baseFiles : List (String × Nat)
  llmContextSize : Nat
  useVerbose : Bool
  llamaNew : LlamaParams → Except PyExc Nat

/-- The effective models directory contents:
`RAMDISK_PATH/models` when `USE_RAMDISK` else `BASE_DIRECTORY/models`. -/
def effFiles (env : LoadEnv) : List (String × Nat) :=
  if env.useRamdisk then env.ramdiskFiles else env.baseFiles

/-- Whether the character list `s` starts with the character list `p`. -/
def charsStartWith : List Char → List Char → Bool
  | [], _ => true
  | _ :: _, [] => false
  | p :: ps, c :: cs => p == c && charsStartWith ps cs

/-- Whether the character list `sub` occurs contiguously inside `s`. -/
def charsContain : List Char → List Char → Bool
  | [], sub => sub.isEmpty
  | c :: rest, sub => charsStartWith sub (c :: rest) || charsContain rest sub

/-- Python substring test `sub in s`. -/
def containsSub (s sub : String) : Bool :=
  charsContain s.data sub.data

/-- Embedding of `glob.glob(os.path.join(models_dir, f"..."))` with the
pattern `llm_model_name*` (no glob metacharacters in the name): the files of
the effective models directory whose basename starts with the model name. -/
def matchingFiles (env : LoadEnv) (llm_model_name : String) : List (String × Nat) :=
  (effFiles env).filter (fun f => charsStartWith llm_model_name.data f.1.data)

/-- Stable insertion (descending by mtime) used by `sortByMtimeDesc`. -/
def insertByMtime (x : String × Nat) : List (String × Nat) → List (String × Nat)
  | [] => [x]
  | y :: ys => if y.2 ≤ x.2 then x :: y :: ys else y :: insertByMtime x ys

/-- Embedding of `matching_files.sort(key=os.path.getmtime, reverse=True)`:
stable sort, most recently modified first. -/
def sortByMtimeDesc : List (String × Nat) → List (String × Nat)
  | [] => []
  | x :: xs => insertByMtime x (sortByMtimeDesc xs)

/-- The selected `model_file_path = matching_files[0]` after the sort.  The
empty-list default is unreachable in `load_model`: the indexing is guarded by
the emptiness check that raises `FileNotFoundError` (Python would raise
`IndexError` there). -/
def selectedPath (env : LoadEnv) (llm_model_name : String) : String :=
  match sortByMtimeDesc (matchingFiles env llm_model_name) with
  | [] => ""
  | f :: _ => f.1

/-- Arguments of the GPU-accelerated construction attempt
(`n_gpu_layers=-1`). -/
def gpuLoadParams (env : LoadEnv) (path : String) : LlamaParams :=
  { model_path := path, embedding := true, n_ctx := env.llmContextSize,
    verbose := env.useVerbose, n_gpu_layers := some (-1) }

/-- Arguments of the CPU construction attempts (no `n_gpu_layers`). -/
def cpuLoadParams (env : LoadEnv) (path : String) : LlamaParams :=
  { model_path := path, embedding := true, n_ctx := env.llmContextSize,
    verbose := env.useVerbose, n_gpu_layers := none }

/-- The outer exception handlers of `load_model`: `except TypeError` re-raises
the exception unchanged; `except Exception` raises `HTTPException(404)` when
`raise_http_exception` else a fresh `FileNotFoundError`. -/
def outerHandler (e : PyExc) (raise_http_exception : Bool) (llm_model_name : String) : PyExc :=
  match e with
  | PyExc.typeError m => PyExc.typeError m
  | _ =>
    if raise_http_exception then PyExc.httpException 404 "Model file not found"
    else PyExc.fileNotFoundError ("No model file found matching: " ++ llm_model_name)

/-- The construction step of `load_model` for a non-llava model: when a GPU
was found, try the GPU-accelerated `llama_cpp.Llama` call and on any raised
exception fall back to the CPU call; without a GPU, only the CPU call. -/
def constructInstance (env : LoadEnv) (model_file_path : String) : Except PyExc Nat :=
  if gpuFoundFlag env.gpu then
    match env.llamaNew (gpuLoadParams env model_file_path) with
    | Except.ok h => Except.ok h
    | Except.error _ => env.llamaNew (cpuLoadParams env model_file_path)
  else env.llamaNew (cpuLoadParams env model_file_path)

/-- The `try` body of `load_model`: cache hit, file discovery (raising
`FileNotFoundError` on no match), llava short-circuit (Python returns the
initial `model_instance = None`), construction and cache publication.
`selectedPath` is referenced where Python indexes the sorted list; the
reordering past the llava test is sound because the indexing is pure and its
only failure (`IndexError` on an empty list) is excluded by the emptiness
guard.  Dict assignment is modelled by consing, which has the same `lookup`
semantics because assignment only happens for a name that was absent. -/
def loadModelInner (env : LoadEnv) (cache : List (String × Nat)) (llm_model_name : String) :
    Except PyExc (Option Nat) × List (String × Nat) :=
  match cache.lookup llm_model_name with
  | some h => (Except.ok (some h), cache)
  | none =>
    if matchingFiles env llm_model_name = [] then
      (Except.error (PyExc.fileNotFoundError ""), cache)
    else if containsSub llm_model_name "llava" then
      (Except.ok none, cache)
    else
      match constructInstance env (selectedPath env llm_model_name) with
      | Except.ok h => (Except.ok (some h), (llm_model_name, h) :: cache)
      | Except.error e => (Except.error e, cache)

/-- Embedding of `load_model` (src/shared_resources.py lines 181-217).  The
global `embedding_model_cache` dict is threaded explicitly: the function maps
the cache before the call to the raised-or-returned outcome (`ok none` is
Python `return None`, reached for llava multimodal models) together with the
cache after the call.  The `try` body is `loadModelInner`; any exception it
raises goes through the two outer handlers (`outerHandler`). -/
def load_model (env : LoadEnv) (cache : List (String × Nat)) (llm_model_name : String)
    (raise_http_exception : Bool := true) :
    Except PyExc (Option Nat) × List (String × Nat) :=
  match loadModelInner env cache llm_model_name with
  | (Except.ok v, c) => (Except.ok v, c)
  | (Except.error e, c) => (Except.error (outerHandler e raise_http_exception llm_model_name), c)

/-! ## `download_models` -/

/-- One entry of the `download_status` list built by `download_models`. -/
structure DlStatus where
  url : String
  status : String
  message : String
deriving DecidableEq

/-- Environment of `download_models`: the url list read from (or seeded into)
`model_urls.json`; the `USE_RAMDISK` flag and whether every model file is
already present in the RAM-disk models directory; the durable models
directory path; the files initially present in it; the file-lock acquisition
outcome (arguments: timeout in seconds, loop iteration index); and the size
in bytes of the file `urllib.request.urlretrieve` produces for a url. -/
structure DlEnv where
  modelUrls : List String
  useRamdisk : Bool
  ramdiskHasAll : Bool
  modelsDirName : String
  initialFiles : List String
  lockAcquire : Nat → Nat → Bool
  downloadSize : String → Nat

/-- Python `os.path.basename(url)`: the characters after the last slash. -/
def basename (url : String) : String :=
  ⟨url.data.foldl (fun acc c => if c == '/' then [] else acc ++ [c]) []⟩

/-- The target path `os.path.join(models_dir, model_name_with_extension)` of
a url. -/
def targetFile (env : DlEnv) (url : String) : String :=
  env.modelsDirName ++ "/" ++ basename url

/-- One iteration of the download loop of `download_models`
(src/shared_resources.py lines 149-169), at loop index `i` with the models
directory currently holding `files`.  Returns the status entry appended for
this url and the directory contents afterwards.  A downloaded file whose size
in MB is `< 100` (bytes `< 100 * 1024 * 1024`) is removed again, so the
directory is unchanged on that path; the status initialised to success with
message "File already exists." is never updated on the successful-download
path, faithfully to the source. -/
def processUrl (env : DlEnv) (files : List String) (i : Nat) (url : String) :
    DlStatus × List String :=
  let filename := targetFile env url
  if env.lockAcquire 1200 i then
    if filename ∈ files then
      ({ url := url, status := "success", message := "File already exists." }, files)
    else
      if env.downloadSize url < 100 * 1024 * 1024 then
        ({ url := url, status := "failure",
           message := "Downloaded file is too small, probably not a valid model file." }, files)
      else
        ({ url := url, status := "success", message := "File already exists." },
         files ++ [filename])
  else
    ({ url := url, status := "failure", message := "Could not acquire lock for downloading." },
     files)

/-- The download loop over the zipped url/name list, threading the directory
contents and the loop index. -/
def downloadLoop (env : DlEnv) : List String → List String → Nat → List DlStatus × List String
  | files, [], _ => ([], files)
  | files, url :: rest, i =>
    let p := processUrl env files i url
    let r := downloadLoop env p.2 rest (i + 1)
    (p.1 :: r.1, r.2)

/-- Return and filesystem outcome of `download_models`: the Python return
value `(model_names, download_status)` plus `files`, the contents of the
durable models directory after the call (modelled state, not a return
value). -/
structure DlResult where
  model_names : List String
  download_status : List DlStatus
  files : List String
deriving DecidableEq

/-- Embedding of `download_models` (src/shared_resources.py lines 117-179).
The json bookkeeping is summarised by `env.modelUrls`; when `USE_RAMDISK` is
set and every model file already sits in the RAM-disk models directory the
loop is skipped with all-success statuses; otherwise each url is processed by
`processUrl` under the download file lock. -/
def download_models (env : DlEnv) : DlResult :=
  let model_names := env.modelUrls.map basename
  if env.useRamdisk && env.ramdiskHasAll then
    { model_names := model_names,
      download_status := env.modelUrls.map
        (fun u => { url := u, status := "success", message := "Model found in RAM Disk." }),
      files := env.initialFiles }
  else
    let r := downloadLoop env env.initialFiles env.modelUrls 0
    { model_names := model_names, download_status := r.1, files := r.2 }

/-! ## `initialize_globals` -/

/-- The four attributes assigned on the `Aioredlock` instance. -/
structure LockManager where
  default_lock_timeout : Nat
  retry_count : Nat
  retry_delay_min : Nat
  retry_delay_max : Nat
deriving DecidableEq

/-- Steps of `initialize_globals`, in program order, recorded as they
complete; `startWriterTask` is the `asyncio.create_task` of
`dedicated_db_writer`. -/
inductive InitEvent where
  | startRedis
  | createRedisPool
  | configureLockManager
  | initDb
  | initProcessingHashes
  | startWriterTask
  | setupRamdisk
  | downloadModels
  | buildFaissIndexes
deriving DecidableEq

/-- Environment of `initialize_globals`: whether Redis already runs, the
attribute values an `Aioredlock` instance carries before the explicit
assignments, whether `initialize_db` and `initialize_processing_hashes`
complete without raising, the `USE_RAMDISK` flag and the ramdisk permission
check, and the environment of the inner `download_models` call. -/
structure InitEnv where
  redisRunning : Bool
  aioredlockDefaults : LockManager
  initDbOk : Bool
  initHashesOk : Bool
  useRamdiskCfg : Bool
  ramdiskPermOk : Bool
  dl : DlEnv

/-- Outcome of `initialize_globals`: the completed steps in order, the
configured lock manager global, the result of the `download_models` call (the
source discards it into local variables), and whether the coroutine ran to
completion (`false` models an exception propagating out). -/
structure InitState where
  events : List InitEvent
  lock_manager : Option LockManager
  downloads : Option DlResult
  ok : Bool

/-- Embedding of `initialize_globals` (src/shared_resources.py lines 87-110).
Await points run strictly in program order on the single event loop; an
exception from an awaited step aborts the coroutine there, so later steps
produce no events.  The four attribute assignments right after the
`Aioredlock` construction override every modelled attribute. -/
def initialize_globals (env : InitEnv) : InitState :=
  let ev0 := (if env.redisRunning then [] else [InitEvent.startRedis]) ++ [InitEvent.createRedisPool]
  let lm : LockManager :=
    { env.aioredlockDefaults with
      default_lock_timeout := 20000, retry_count := 5,
      retry_delay_min := 100, retry_delay_max := 1000 }
  let ev1 := ev0 ++ [InitEvent.configureLockManager]
  if !env.initDbOk then
    { events := ev1, lock_manager := some lm, downloads := none, ok := false }
  else
    let ev2 := ev1 ++ [InitEvent.initDb]
    if !env.initHashesOk then
      { events := ev2, lock_manager := some lm, downloads := none, ok := false }
    else
      let ev3 := ev2 ++ [InitEvent.initProcessingHashes, InitEvent.startWriterTask]
      let ev4 := ev3 ++ (if env.useRamdiskCfg && env.ramdiskPermOk then [InitEvent.setupRamdisk] else [])
      let dlr := download_models env.dl
      { events := ev4 ++ [InitEvent.downloadModels, InitEvent.buildFaissIndexes],
        lock_manager := some lm, downloads := some dlr, ok := true }

/-! ## Expiry sweep registration (module level) -/

/-- Observable runs of the expiry cleanup. -/
inductive SweepEvent where
  | cleanupRun
deriving DecidableEq

/-- State of the APScheduler after the module-level registration block:
cleanup executions that happened at registration time, and the registered
jobs as (trigger kind, interval hours). -/
structure SchedulerState where
  registrationEvents : List SweepEvent
  jobs : List (String × Nat)
deriving DecidableEq

/-- Modelled from the spec: `delete_expired_rows` lives in
`database_functions.py`, which is not under src/.  Per the spec (design
notes), "the retention-sweep scheduling appears, in the source behavior, to
invoke the cleanup operation once immediately (at registration time) rather
than only repeatedly on each interval boundary"; accordingly, evaluating
`delete_expired_rows(AsyncSessionLocal)` performs the cleanup once, and its
value is what gets handed to `scheduler.add_job`. -/
def delete_expired_rows (_sessionFactory : Unit) : List SweepEvent :=
  [SweepEvent.cleanupRun]

/-- Embedding of the module-level scheduler block (src/shared_resources.py
lines 44-48): when `USE_AUTOMATIC_PURGING_OF_EXPIRED_RECORDS` is set, an
`AsyncIOScheduler` is created, `scheduler.add_job(` the eagerly evaluated
argument `, 'interval', hours=1)` registers an hourly job, and the scheduler
is started. -/
def scheduleExpirySweep (useAutomaticPurging : Bool) : SchedulerState :=
  if useAutomaticPurging then
    let argEvents := delete_expired_rows ()
    { registrationEvents := argEvents, jobs := [("interval", 1)] }
  else
    { registrationEvents := [], jobs := [] }

/-! ## Concrete environments used by witnesses and counterexamples -/

/-- GPU environment with the nvgpu module absent. -/
def gpuAbsentEnv : GpuEnv := { modulePresent := false, query := none, queryError := "" }

/-- GPU environment reporting one GPU with 1024 MB of VRAM. -/
def gpuOneEnv : GpuEnv := { modulePresent := true, query := some [1024], queryError := "" }

/-- Load environment with an empty models directory. -/
def loadEnvNoFile : LoadEnv :=
  { gpu := gpuAbsentEnv, useRamdisk := false, ramdiskFiles := [], baseFiles := [],
    llmContextSize := 512, useVerbose := false,
    llamaNew := fun _ => Except.error (PyExc.otherError "failed to load") }

/-- Load environment without GPU whose construction succeeds with handle 7. -/
def loadEnvCpuOk : LoadEnv :=
  { gpu := gpuAbsentEnv, useRamdisk := false, ramdiskFiles := [],
    baseFiles := [("m.gguf", 5)], llmContextSize := 512, useVerbose := false,
    llamaNew := fun _ => Except.ok 7 }

/-- Load environment whose construction always raises. -/
def loadEnvAllFail : LoadEnv :=
  { gpu := gpuAbsentEnv, useRamdisk := false, ramdiskFiles := [],
    baseFiles := [("m.gguf", 5)], llmContextSize := 512, useVerbose := false,
    llamaNew := fun _ => Except.error (PyExc.otherError "failed to load") }

/-- Load environment with a GPU whose GPU-accelerated construction raises and
whose CPU construction succeeds with handle 7. -/
def loadEnvGpuFail : LoadEnv :=
  { gpu := gpuOneEnv, useRamdisk := false, ramdiskFiles := [],
    baseFiles := [("m.gguf", 5)], llmContextSize := 512, useVerbose := false,
    llamaNew := fun p =>
      if p.n_gpu_layers = some (-1) then Except.error (PyExc.otherError "cuda error")
      else Except.ok 7 }

/-- Load environment with a GPU, a matching llava model file, and a
construction that would succeed with handle 7 if it were attempted. -/
def llavaGpuEnv : LoadEnv :=
  { gpu := gpuOneEnv, useRamdisk := false, ramdiskFiles := [],
    baseFiles := [("llava-model.gguf", 3)], llmContextSize := 512, useVerbose := false,
    llamaNew := fun _ => Except.ok 7 }

/-- Download environment: one url, empty models directory, lock available,
downloads produce a 0-byte file. -/
def dlEnvSmall : DlEnv :=
  { modelUrls := ["http://host/m.gguf"], useRamdisk := false, ramdiskHasAll := false,
    modelsDirName := "models", initialFiles := [],
    lockAcquire := fun _ _ => true, downloadSize := fun _ => 0 }

/-- Like `dlEnvSmall` but downloads produce a file of exactly 100 MB. -/
def dlEnvBig : DlEnv := { dlEnvSmall with downloadSize := fun _ => 100 * 1024 * 1024 }

/-- Like `dlEnvSmall` but the target file already exists. -/
def dlEnvExists : DlEnv := { dlEnvSmall with initialFiles := ["models/m.gguf"] }

/-- Like `dlEnvExists` but the download lock cannot be acquired within the
1200 second wait. -/
def c7Env : DlEnv := { dlEnvExists with lockAcquire := fun _ _ => false }

/-- Startup environment where every step succeeds. -/
def initOkEnv : InitEnv :=
  { redisRunning := true, aioredlockDefaults := ⟨0, 0, 0, 0⟩, initDbOk := true,
    initHashesOk := true, useRamdiskCfg := false, ramdiskPermOk := false, dl := dlEnvSmall }

/-- Startup environment where `initialize_processing_hashes` raises. -/
def initFailEnv : InitEnv := { initOkEnv with initHashesOk := false }

/-! ## Helper lemmas -/

/-- A cache hit returns the cached handle and leaves the cache unchanged. -/
theorem load_model_cache_hit (env : LoadEnv) (cache : List (String × Nat))
    (n : String) (r : Bool) (h : Nat) (hh : cache.lookup n = some h) :
    load_model env cache n r = (Except.ok (some h), cache) := by
  unfold load_model loadModelInner
  simp [hh]

/-- The `try` body never removes or overwrites an existing cache entry. -/
theorem loadModelInner_cache_monotone (env : LoadEnv) (cache : List (String × Nat))
    (n : String) (k : String) (v : Nat) (hk : cache.lookup k = some v) :
    (loadModelInner env cache n).2.lookup k = some v := by
  unfold loadModelInner
  cases hc : cache.lookup n with
  | some h => exact hk
  | none =>
    by_cases hm : matchingFiles env n = []
    · simp [hm, hk]
    · by_cases hll : containsSub n "llava" = true
      · simp [hm, hll, hk]
      · have hkn : (k == n) = false := by
          rcases hb : k == n with _ | _
          · rfl
          · rw [beq_iff_eq] at hb
            subst hb
            rw [hc] at hk
            cases hk
        cases hcon : constructInstance env (selectedPath env n) with
        | ok h => simp [hm, hll, hcon, List.lookup, hkn, hk]
        | error e => simp [hm, hll, hcon, hk]

/-- No call of `load_model` removes or overwrites an existing cache entry. -/
theorem load_model_cache_monotone (env : LoadEnv) (cache : List (String × Nat))
    (n : String) (r : Bool) (k : String) (v : Nat) (hk : cache.lookup k = some v) :
    (load_model env cache n r).2.lookup k = some v := by
  unfold load_model
  have hmono := loadModelInner_cache_monotone env cache n k v hk
  rcases h : loadModelInner env cache n with ⟨res, c⟩
  rw [h] at hmono
  cases res <;> simpa using hmono

/-- The download loop emits one status entry per url. -/
theorem downloadLoop_length (env : DlEnv) (l : List String) (files : List String) (i : Nat) :
    (downloadLoop env files l i).1.length = l.length := by
  induction l generalizing files i with
  | nil => rfl
  | cons u rest ih => simp [downloadLoop, ih]

/-- The download loop processes an appended url list in two stages, the second
starting from the files and index the first stage reached. -/
theorem downloadLoop_append (env : DlEnv) (l1 l2 : List String) (files : List String) (i : Nat) :
    downloadLoop env files (l1 ++ l2) i =
      ((downloadLoop env files l1 i).1 ++
         (downloadLoop env (downloadLoop env files l1 i).2 l2 (i + l1.length)).1,
       (downloadLoop env (downloadLoop env files l1 i).2 l2 (i + l1.length)).2) := by
  induction l1 generalizing files i with
  | nil => simp [downloadLoop]
  | cons u rest ih =>
    have hidx : i + 1 + rest.length = i + (rest.length + 1) := by omega
    simp only [List.cons_append, downloadLoop, List.length_cons, List.append_eq]
    rw [ih, hidx]

/-- The status entry recorded for the url at position `l1.length`, and the
directory contents after its iteration, are given by `processUrl` at the
state the loop reached after the first `l1.length` iterations. -/
theorem download_status_at (env : DlEnv) (l1 l2 : List String) (u : String)
    (hurls : env.modelUrls = l1 ++ u :: l2) (hram : env.useRamdisk = false) :
    (download_models env).download_status[l1.length]? =
      some (processUrl env (downloadLoop env env.initialFiles l1 0).2 l1.length u).1 ∧
    (downloadLoop env env.initialFiles (l1 ++ [u]) 0).2 =
      (processUrl env (downloadLoop env env.initialFiles l1 0).2 l1.length u).2 := by
  constructor
  · rw [download_models]
    simp only [hram, Bool.false_and, if_neg Bool.false_ne_true, hurls]
    rw [downloadLoop_append]
    rw [List.getElem?_append_right (by rw [downloadLoop_length])]
    simp [downloadLoop_length, downloadLoop]
  · rw [downloadLoop_append]
    simp [downloadLoop]

/-! ## Claim theorems -/

/-- Claim C1 (code_bug): the claim states the expiry sweep is registered with
a fixed one-hour interval and that the cleanup operation is invoked anew on
each interval boundary only, not at registration time.  Evaluating the
module-level registration block (with the spec-modelled `delete_expired_rows`)
shows the job is indeed registered with trigger kind interval and one hour,
but the cleanup also runs once at registration time, because the
`scheduler.add_job` argument `delete_expired_rows(AsyncSessionLocal)` is
evaluated eagerly at the call. -/
theorem C1_expiry_registration_runs_cleanup :
    (scheduleExpirySweep true).jobs = [("interval", 1)] ∧
    SweepEvent.cleanupRun ∈ (scheduleExpirySweep true).registrationEvents := by
  constructor
  · rfl
  · simp [scheduleExpirySweep, delete_expired_rows]

/-- Claim C2: during startup, the dedup-index initialization
(`initialize_processing_hashes`) runs to completion strictly before the
dedicated writer consumer task is started (the two steps are adjacent in
every completed event trace), and when the initialization fails the writer
task is never started and startup aborts. -/
theorem C2_init_hashes_before_writer (env : InitEnv) :
    (InitEvent.startWriterTask ∈ (initialize_globals env).events →
      [InitEvent.initProcessingHashes, InitEvent.startWriterTask] <:+:
        (initialize_globals env).events) ∧
    (env.initHashesOk = false →
      InitEvent.startWriterTask ∉ (initialize_globals env).events ∧
      (initialize_globals env).ok = false) := by
  obtain ⟨r, ad, dbok, hok, rc, rp, dl⟩ := env
  cases dbok with
  | false =>
    refine ⟨fun hmem => absurd hmem ?_, fun _ => ⟨?_, ?_⟩⟩ <;>
      cases r <;> simp [initialize_globals]
  | true =>
    cases hok with
    | false =>
      refine ⟨fun hmem => absurd hmem ?_, fun _ => ⟨?_, ?_⟩⟩ <;>
        cases r <;> simp [initialize_globals]
    | true =>
      refine ⟨fun _ => ?_, fun h => by simp at h⟩
      refine ⟨(if r then [] else [InitEvent.startRedis]) ++
                [InitEvent.createRedisPool, InitEvent.configureLockManager, InitEvent.initDb],
              (if rc && rp then [InitEvent.setupRamdisk] else []) ++
                [InitEvent.downloadModels, InitEvent.buildFaissIndexes], ?_⟩
      cases r <;> cases rc <;> cases rp <;> simp [initialize_globals]

/-- Witness for claim C2 at concrete startup environments: successful startup
has the two adjacent events, failing dedup-index initialization yields no
writer-start event. -/
theorem C2_witness :
    ([InitEvent.initProcessingHashes, InitEvent.startWriterTask] <:+:
      (initialize_globals initOkEnv).events) ∧
    InitEvent.startWriterTask ∉ (initialize_globals initFailEnv).events :=
  ⟨(C2_init_hashes_before_writer initOkEnv).1 (by decide),
   ((C2_init_hashes_before_writer initFailEnv).2 rfl).1⟩

/-- Counterexample to claim C3 as stated: a model name containing llava is a
model name not in the cache with a matching file and with a GPU detected, yet
`load_model` attempts no construction at all — with a constructor that would
succeed with handle 7 (in particular on the GPU parameters for the selected
path), the call still returns `None` and publishes nothing, instead of first
attempting GPU construction and returning the constructed handle. -/
theorem C3_counterexample :
    ([] : List (String × Nat)).lookup "llava-model" = none ∧
    matchingFiles llavaGpuEnv "llava-model" ≠ [] ∧
    gpuFoundFlag llavaGpuEnv.gpu = true ∧
    llavaGpuEnv.llamaNew
        (gpuLoadParams llavaGpuEnv (selectedPath llavaGpuEnv "llava-model")) =
      Except.ok 7 ∧
    load_model llavaGpuEnv [] "llava-model" true = (Except.ok none, []) := by
  exact ⟨rfl, by decide, by decide, rfl, by decide⟩

/-- Claim C3 (amended with the llava carve-out): for every model name not in
the cache, with a matching file, whose name does not contain the substring
llava, when a GPU is detected `load_model` first attempts construction with
GPU acceleration: a successful GPU attempt is published and returned; if the
GPU attempt raises any error, construction is retried without GPU
acceleration and no error from the GPU attempt is surfaced (the outcome
depends only on the CPU attempt); only if the CPU attempt also fails does a
fatal load error propagate (through the outer handlers). -/
theorem C3_amended_gpu_cpu_fallback (env : LoadEnv) (cache : List (String × Nat))
    (n : String) (r : Bool)
    (hmiss : cache.lookup n = none)
    (hfile : matchingFiles env n ≠ [])
    (hnl : containsSub n "llava" = false)
    (hgpu : gpuFoundFlag env.gpu = true) :
    (∀ h, env.llamaNew (gpuLoadParams env (selectedPath env n)) = Except.ok h →
      load_model env cache n r = (Except.ok (some h), (n, h) :: cache)) ∧
    (∀ e h, env.llamaNew (gpuLoadParams env (selectedPath env n)) = Except.error e →
      env.llamaNew (cpuLoadParams env (selectedPath env n)) = Except.ok h →
      load_model env cache n r = (Except.ok (some h), (n, h) :: cache)) ∧
    (∀ e e2, env.llamaNew (gpuLoadParams env (selectedPath env n)) = Except.error e →
      env.llamaNew (cpuLoadParams env (selectedPath env n)) = Except.error e2 →
      load_model env cache n r = (Except.error (outerHandler e2 r n), cache)) := by
  unfold load_model loadModelInner constructInstance
  refine ⟨fun h hok => ?_, fun e h herr hok => ?_, fun e e2 herr herr2 => ?_⟩ <;>
    simp [hmiss, hfile, hnl, hgpu, *]

/-- Witness for claim C3 at a concrete environment whose GPU attempt raises
and whose CPU attempt succeeds with handle 7: the handle is returned and
published, the GPU error is not surfaced. -/
theorem C3_witness :
    load_model loadEnvGpuFail [] "m" true = (Except.ok (some 7), [("m", 7)]) :=
  ((C3_amended_gpu_cpu_fallback loadEnvGpuFail [] "m" true rfl (by decide)
      (by decide) (by decide)).2.1)
    (PyExc.otherError "cuda error") 7 (by decide) (by decide)

/-- Claim C4: for every downloaded artifact (target file absent at its
iteration, lock acquired within the 1200 second wait) whose resulting file
size is below the 100 MB threshold, `download_models` deletes the file (it is
absent from the directory after the iteration) and records a failure status
for that url without raising (a status entry exists for every url); a file at
or above the threshold is kept and its status is success. -/
theorem C4_download_size_threshold (env : DlEnv) (l1 l2 : List String) (u : String)
    (hurls : env.modelUrls = l1 ++ u :: l2)
    (hram : env.useRamdisk = false)
    (hlock : env.lockAcquire 1200 l1.length = true)
    (habsent : targetFile env u ∉ (downloadLoop env env.initialFiles l1 0).2) :
    (download_models env).download_status.length = env.modelUrls.length ∧
    (env.downloadSize u < 100 * 1024 * 1024 →
      (download_models env).download_status[l1.length]? =
        some { url := u, status := "failure",
               message := "Downloaded file is too small, probably not a valid model file." } ∧
      targetFile env u ∉ (downloadLoop env env.initialFiles (l1 ++ [u]) 0).2) ∧
    (100 * 1024 * 1024 ≤ env.downloadSize u →
      (download_models env).download_status[l1.length]? =
        some { url := u, status := "success", message := "File already exists." } ∧
      targetFile env u ∈ (downloadLoop env env.initialFiles (l1 ++ [u]) 0).2) := by
  obtain ⟨hst, hfs⟩ := download_status_at env l1 l2 u hurls hram
  refine ⟨?_, fun hsize => ?_, fun hsize => ?_⟩
  · rw [download_models]
    simp [hram, hurls, downloadLoop_length]
  · rw [hst, hfs]
    simp [processUrl, hlock, habsent, hsize]
  · rw [hst, hfs]
    simp [processUrl, hlock, habsent, Nat.not_lt.mpr hsize]

/-- Witness for claim C4 at concrete one-url environments: a 0-byte download
is recorded as a failure and the file is gone; a 100 MB download is recorded
as a success and the file is kept. -/
theorem C4_witness :
    ((download_models dlEnvSmall).download_status[0]? =
      some { url := "http://host/m.gguf", status := "failure",
             message := "Downloaded file is too small, probably not a valid model file." } ∧
     targetFile dlEnvSmall "http://host/m.gguf" ∉
       (downloadLoop dlEnvSmall dlEnvSmall.initialFiles ["http://host/m.gguf"] 0).2) ∧
    ((download_models dlEnvBig).download_status[0]? =
      some { url := "http://host/m.gguf", status := "success",
             message := "File already exists." } ∧
     targetFile dlEnvBig "http://host/m.gguf" ∈
       (downloadLoop dlEnvBig dlEnvBig.initialFiles ["http://host/m.gguf"] 0).2) :=
  ⟨(C4_download_size_threshold dlEnvSmall [] [] "http://host/m.gguf" rfl rfl rfl
      (by decide)).2.1 (by decide),
   (C4_download_size_threshold dlEnvBig [] [] "http://host/m.gguf" rfl rfl rfl
      (by decide)).2.2 (by decide)⟩

/-- Claim C5: for every model name with no file in the effective models
directory matching the name as a basename-initial segment, and not in the
cache, `load_model` raises a terminal not-found error surfaced to the caller:
`HTTPException` with status 404 when `raise_http_exception` is true,
otherwise `FileNotFoundError`; the cache is unchanged and there is no
retry. -/
theorem C5_load_model_not_found (env : LoadEnv) (cache : List (String × Nat))
    (n : String) (r : Bool)
    (hmiss : cache.lookup n = none)
    (hnofile : matchingFiles env n = []) :
    load_model env cache n r =
      (Except.error (if r then PyExc.httpException 404 "Model file not found"
                     else PyExc.fileNotFoundError ("No model file found matching: " ++ n)),
       cache) := by
  unfold load_model loadModelInner outerHandler
  simp [hmiss, hnofile]

/-- Witness for claim C5 at a concrete environment with an empty models
directory: the call surfaces the HTTP 404 error. -/
theorem C5_witness :
    load_model loadEnvNoFile [] "m" true =
      (Except.error (PyExc.httpException 404 "Model file not found"), []) :=
  C5_load_model_not_found loadEnvNoFile [] "m" true rfl rfl

/-- Claim C6: once a `load_model` call has stored a handle for a name in the
cache, every subsequent `load_model` call with that name returns exactly that
cached handle and leaves the cache unchanged — whatever environment the later
call runs in, in particular one whose constructor always fails, so no
re-construction happens — and no entry present before the first call was
evicted by it. -/
theorem C6_cache_idempotent (env env2 : LoadEnv) (cache : List (String × Nat))
    (n : String) (r r2 : Bool) (h : Nat)
    (hstore : (load_model env cache n r).2.lookup n = some h) :
    load_model env2 (load_model env cache n r).2 n r2 =
      (Except.ok (some h), (load_model env cache n r).2) ∧
    ∀ k v, cache.lookup k = some v → (load_model env cache n r).2.lookup k = some v :=
  ⟨load_model_cache_hit env2 (load_model env cache n r).2 n r2 h hstore,
   fun k v hk => load_model_cache_monotone env cache n r k v hk⟩

/-- Witness for claim C6: after a successful load stored handle 7 for a name,
a second call in an environment whose constructor always raises still returns
handle 7 with the cache unchanged. -/
theorem C6_witness :
    load_model loadEnvAllFail (load_model loadEnvCpuOk [] "m" true).2 "m" true =
      (Except.ok (some 7), (load_model loadEnvCpuOk [] "m" true).2) :=
  (C6_cache_idempotent loadEnvCpuOk loadEnvAllFail [] "m" true true 7 (by decide)).1

/-- Counterexample to claim C7 as stated: a url whose target file already
exists in the models directory, in a run where the 1200 second lock wait
times out.  The code performs no download, but records a failure status
("Could not acquire lock for downloading.") for that url, not the success
status the claim asserts, because the existence check sits inside the locked
region. -/
theorem C7_counterexample :
    targetFile c7Env "http://host/m.gguf" ∈ c7Env.initialFiles ∧
    (download_models c7Env).download_status =
      [{ url := "http://host/m.gguf", status := "failure",
         message := "Could not acquire lock for downloading." }] ∧
    (download_models c7Env).files = c7Env.initialFiles := by
  exact ⟨by decide, by decide, by decide⟩

/-- Claim C7 (amended for the lock-timeout path): for every artifact url
whose target file already exists at its iteration, when the filesystem lock
is acquired within the bounded 1200 second wait `download_models` performs no
download (the directory is unchanged) and records a success status for that
url; when the lock wait times out, a failure status is recorded and still no
download is performed; the download path is taken only when the target file
does not exist, under the lock. -/
theorem C7_amended_existing_file (env : DlEnv) (l1 l2 : List String) (u : String)
    (hurls : env.modelUrls = l1 ++ u :: l2)
    (hram : env.useRamdisk = false)
    (hex : targetFile env u ∈ (downloadLoop env env.initialFiles l1 0).2) :
    (env.lockAcquire 1200 l1.length = true →
      (download_models env).download_status[l1.length]? =
        some { url := u, status := "success", message := "File already exists." } ∧
      (downloadLoop env env.initialFiles (l1 ++ [u]) 0).2 =
        (downloadLoop env env.initialFiles l1 0).2) ∧
    (env.lockAcquire 1200 l1.length = false →
      (download_models env).download_status[l1.length]? =
        some { url := u, status := "failure",
               message := "Could not acquire lock for downloading." } ∧
      (downloadLoop env env.initialFiles (l1 ++ [u]) 0).2 =
        (downloadLoop env env.initialFiles l1 0).2) := by
  obtain ⟨hst, hfs⟩ := download_status_at env l1 l2 u hurls hram
  refine ⟨fun hlock => ?_, fun hlock => ?_⟩
  · rw [hst, hfs]
    simp [processUrl, hlock, hex]
  · rw [hst, hfs]
    simp [processUrl, hlock]

/-- Witness for claim C7 at a concrete environment where the target file
exists and the lock is acquired: success status, directory unchanged. -/
theorem C7_witness :
    (download_models dlEnvExists).download_status[0]? =
      some { url := "http://host/m.gguf", status := "success",
             message := "File already exists." } ∧
    (downloadLoop dlEnvExists dlEnvExists.initialFiles ["http://host/m.gguf"] 0).2 =
      dlEnvExists.initialFiles :=
  (C7_amended_existing_file dlEnvExists [] [] "http://host/m.gguf" rfl rfl (by decide)).1 rfl

/-- Claim C9: for every model name containing the substring llava that is not
already in the cache and has a matching model file, `load_model` constructs
no handle (the environment constructor is arbitrary and unused), stores
nothing in the cache, and returns `None` without raising. -/
theorem C9_llava_returns_none (env : LoadEnv) (cache : List (String × Nat))
    (n : String) (r : Bool)
    (hllava : containsSub n "llava" = true)
    (hmiss : cache.lookup n = none)
    (hfile : matchingFiles env n ≠ []) :
    load_model env cache n r = (Except.ok none, cache) := by
  unfold load_model loadModelInner
  simp [hmiss, hfile, hllava]

/-- Witness for claim C9 at a concrete environment with a llava model file
present and a GPU detected. -/
theorem C9_witness :
    load_model llavaGpuEnv [] "llava-model" true = (Except.ok none, []) :=
  C9_llava_returns_none llavaGpuEnv [] "llava-model" true (by decide) rfl (by decide)

/-- Claim C8: after `initialize_globals` completes, the distributed lock
manager is configured with acquisition timeout 20000 ms, retry count 5, and
retry delay bounded between 100 ms and 1000 ms, whatever attribute values the
`Aioredlock` instance started with. -/
theorem C8_lock_manager_defaults (env : InitEnv)
    (h : (initialize_globals env).ok = true) :
    (initialize_globals env).lock_manager =
      some { default_lock_timeout := 20000, retry_count := 5,
             retry_delay_min := 100, retry_delay_max := 1000 } := by
  obtain ⟨r, ad, dbok, hok, rc, rp, dl⟩ := env
  cases dbok <;> cases hok <;> rfl

/-- Witness for claim C8 at a concrete successful startup environment. -/
theorem C8_witness :
    (initialize_globals initOkEnv).lock_manager =
      some { default_lock_timeout := 20000, retry_count := 5,
             retry_delay_min := 100, retry_delay_max := 1000 } :=
  C8_lock_manager_defaults initOkEnv rfl

/-- Claim C10: `is_gpu_available` is total: for every environment state
(nvgpu module absent, zero GPUs reported, or the GPU query raising any
exception) it returns a dictionary containing the boolean key `gpu_found`
plus `num_gpus`, `first_gpu_vram` and `total_vram`, and it never raises (the
embedding is a total Lean function covering all four branches). -/
theorem C10_is_gpu_available_total (env : GpuEnv) :
    ∃ b n1 n2 n3, ("gpu_found", GpuVal.b b) ∈ is_gpu_available env ∧
      ("num_gpus", GpuVal.n n1) ∈ is_gpu_available env ∧
      ("first_gpu_vram", GpuVal.n n2) ∈ is_gpu_available env ∧
      ("total_vram", GpuVal.n n3) ∈ is_gpu_available env := by
  unfold is_gpu_available
  rcases env with ⟨mp, q, qe⟩
  cases mp with
  | false => exact ⟨false, 0, 0, 0, by simp⟩
  | true =>
    cases q with
    | none => exact ⟨false, 0, 0, 0, by simp⟩
    | some l =>
      by_cases hl : l.length = 0
      · exact ⟨false, 0, 0, 0, by simp [hl]⟩
      · exact ⟨true, l.length, l.headI, l.sum, by simp [hl]⟩

end SALlama
